import Mathlib

/-!
Shallow embedding of the fatigue-scoring and metric-aggregation engine of
the "do I need to sleep/rest" mobile app.

Sources embedded here:
* `FaceAnalysisService` (calculateFatigueScore, calculateTrend,
  generateRecommendations, trackBlinks, calculateEyeAspectRatio, and the
  result-building tail of analyzeFace together with the fatigue-history
  buffer update).
* `restAnalysisService.ts` (aggregateFrameAnalyses).

Numbers are modelled as exact rationals (`ℚ`); the JavaScript decimal
literals (0.3, 0.2, 0.15, ...) are taken at their decimal value.
Timestamps (`Date.now()` milliseconds) are modelled as `ℕ` and passed as
explicit parameters.  The eye-aspect-ratio geometry uses `ℝ` because it
involves `Math.sqrt`; its division is modelled as fallible (`Option`),
`none` standing for the non-finite value JavaScript produces when the
divisor is zero.
-/

namespace SleepRest

/-- Trend classification returned by `calculateTrend`. -/
inductive Trend where
  | improving
  | stable
  | declining
deriving DecidableEq, Repr

/-- `headPose` component of `HealthMetrics` (degrees). -/
structure HeadPose where
  pitch : ℚ
  yaw : ℚ
  roll : ℚ
deriving DecidableEq, Repr

/-- `skinAnalysis` component of `HealthMetrics`. -/
structure SkinAnalysis where
  pallor : ℚ
  darkness : ℚ
deriving DecidableEq, Repr

/-- `drowsinessIndicators` component of `HealthMetrics`. -/
structure DrowsinessIndicators where
  heavyEyelids : Bool
  slowBlinks : Bool
  headDropping : Bool
  reducedFacialExpression : Bool
deriving DecidableEq, Repr

/-- The `HealthMetrics` record of `types/index.ts` (per-frame facial metrics). -/
structure HealthMetrics where
  eyeAspectRatio : ℚ
  blinkRate : ℚ
  eyeStrain : ℚ
  facialTension : ℚ
  headPose : HeadPose
  skinAnalysis : SkinAnalysis
  drowsinessIndicators : DrowsinessIndicators
deriving DecidableEq, Repr

/-- The `FaceAnalysisResult` record of `types/index.ts` (per-frame or aggregated
session result). -/
structure FaceAnalysisResult where
  timestamp : ℕ
  faceDetected : Bool
  confidence : ℚ
  healthMetrics : HealthMetrics
  fatigueScore : ℚ
  needsRest : Bool
  needsSleep : Bool
  trend : Trend
  recommendations : List String
deriving DecidableEq, Repr

/-- The `earFatigue` sub-term of `calculateFatigueScore`:
`Math.max(0, (0.3 - metrics.eyeAspectRatio) * 300)`. -/
def earFatigue (eyeAspectRatio : ℚ) : ℚ :=
  max 0 ((3/10 - eyeAspectRatio) * 300)

/-- `FaceAnalysisService.calculateFatigueScore`: weighted blend of the
per-metric fatigue indicators, clamped to `[0, 100]` by
`Math.min(100, Math.max(0, totalScore))`. -/
def calculateFatigueScore (metrics : HealthMetrics) : ℚ :=
  let earWeight : ℚ := 3/10
  let blinkWeight : ℚ := 2/10
  let strainWeight : ℚ := 2/10
  let tensionWeight : ℚ := 15/100
  let poseWeight : ℚ := 15/100
  let ear := earFatigue metrics.eyeAspectRatio
  let blinkFatigue : ℚ :=
    if metrics.blinkRate < 10 then 80 else max 0 ((30 - metrics.blinkRate) * 2)
  let strainFatigue := metrics.eyeStrain
  let tensionFatigue := 100 - metrics.facialTension
  let poseFatigue := metrics.headPose.pitch * 3
  let totalScore :=
    ear * earWeight +
    blinkFatigue * blinkWeight +
    strainFatigue * strainWeight +
    tensionFatigue * tensionWeight +
    poseFatigue * poseWeight
  min 100 (max 0 totalScore)

/-- `FaceAnalysisService.calculateTrend` on an explicit history argument
(the `fatigueHistory` buffer).  JavaScript `slice(-5)` on a list of length
`≥ 5` is `drop (length - 5)`; `slice(-10, -5)` keeps the elements whose
indices lie in `[max(0, length-10), length-5)`, i.e.
`(take (length - 5)).drop (length - 10)` with truncated `ℕ` subtraction. -/
def calculateTrend (fatigueHistory : List ℚ) : Trend :=
  if fatigueHistory.length < 5 then .stable
  else
    let recent := fatigueHistory.drop (fatigueHistory.length - 5)
    let older := (fatigueHistory.take (fatigueHistory.length - 5)).drop
      (fatigueHistory.length - 10)
    if older.length = 0 then .stable
    else
      let recentAvg := recent.sum / (recent.length : ℚ)
      let olderAvg := older.sum / (older.length : ℚ)
      let difference := recentAvg - olderAvg
      if difference < -5 then .improving
      else if difference > 5 then .declining
      else .stable

/-- The last `n` elements of a list (used only to phrase the spec-side trend
description and the last-10-scores dependence property). -/
def lastN (n : ℕ) (l : List ℚ) : List ℚ :=
  l.drop (l.length - n)

/-- Modelled from the spec wording of the trend rule (for comparison with
`calculateTrend`): fewer than 5 scores gives `stable`; otherwise `recent` is
the last 5 scores and `older` the 5 before those; `stable` when `older` is
empty; otherwise classify `mean recent - mean older` against `±5`. -/
def trendSpec (fatigueHistory : List ℚ) : Trend :=
  if fatigueHistory.length < 5 then .stable
  else
    let recent := lastN 5 fatigueHistory
    let older := lastN 5 (fatigueHistory.take (fatigueHistory.length - 5))
    if older = [] then .stable
    else
      let difference := recent.sum / (recent.length : ℚ) - older.sum / (older.length : ℚ)
      if difference < -5 then .improving
      else if difference > 5 then .declining
      else .stable

/-- `FaceAnalysisService.generateRecommendations`: each triggered condition
pushes its two message strings, in source order; if nothing triggered, the
two all-good messages are returned. -/
def generateRecommendations (metrics : HealthMetrics) (fatigueScore : ℚ) :
    List String :=
  let napRecs : List String :=
    if fatigueScore > 80 then
      ["Take a 20-30 minute nap immediately",
       "Avoid driving or operating machinery"]
    else if fatigueScore > 60 then
      ["Take a 10-15 minute break",
       "Get some fresh air or light exercise"]
    else []
  let strainRecs : List String :=
    if metrics.eyeStrain > 60 then
      ["Look away from screens for 5-10 minutes",
       "Practice the 20-20-20 rule (look 20 feet away for 20 seconds every 20 minutes)"]
    else []
  let blinkRecs : List String :=
    if metrics.blinkRate < 10 then
      ["Consciously blink more frequently",
       "Use eye drops if eyes feel dry"]
    else []
  let postureRecs : List String :=
    if metrics.headPose.pitch > 15 then
      ["Improve your posture",
       "Adjust your workspace ergonomics"]
    else []
  let recommendations := napRecs ++ strainRecs ++ blinkRecs ++ postureRecs
  if recommendations.length = 0 then
    ["Your alertness levels look good!",
     "Keep maintaining healthy sleep habits"]
  else recommendations

/-- The push phase of `FaceAnalysisService.trackBlinks`: when `isBlinking`
and there is a previous blink, a new blink timestamp is appended only when
`currentTime - lastBlink > 200`; when `isBlinking` and no blink is recorded,
the timestamp is appended unconditionally.  Times are `Date.now()`
milliseconds (`ℕ`, monotone in practice; `ℕ` truncated subtraction agrees
with the JavaScript comparison also when the difference is negative, both
sides failing the `> 200` test). -/
def trackBlinksPush (previousBlinks : List ℕ) (isBlinking : Bool)
    (currentTime : ℕ) : List ℕ :=
  if isBlinking && decide (0 < previousBlinks.length) then
    let lastBlink := previousBlinks.getLastD 0
    if currentTime - lastBlink > 200 then previousBlinks ++ [currentTime]
    else previousBlinks
  else if isBlinking && decide (previousBlinks.length = 0) then
    previousBlinks ++ [currentTime]
  else previousBlinks

/-- `FaceAnalysisService.trackBlinks`: the push phase followed by the
last-minute filter `currentTime - time < 60000`. -/
def trackBlinks (previousBlinks : List ℕ) (isBlinking : Bool)
    (currentTime : ℕ) : List ℕ :=
  (trackBlinksPush previousBlinks isBlinking currentTime).filter
    (fun time => currentTime - time < 60000)

/-- The `fatigueHistory` buffer update in `analyzeFace`: push the new score,
then drop the oldest entry when the buffer exceeds 30 scores. -/
def pushHistory (fatigueHistory : List ℚ) (fatigueScore : ℚ) : List ℚ :=
  let pushed := fatigueHistory ++ [fatigueScore]
  if pushed.length > 30 then pushed.drop 1 else pushed

/-- The result-building tail of `FaceAnalysisService.analyzeFace` after the
detectors produced `metrics` with confidence `confidence` at time `now`:
computes the fatigue score, updates the history buffer, and builds the
per-frame `FaceAnalysisResult` (trend is computed from the updated buffer).
Returns the frame result together with the new buffer. -/
def analyzeFaceCore (fatigueHistory : List ℚ) (now : ℕ) (confidence : ℚ)
    (metrics : HealthMetrics) : FaceAnalysisResult × List ℚ :=
  let fatigueScore := calculateFatigueScore metrics
  let newHistory := pushHistory fatigueHistory fatigueScore
  ({ timestamp := now
     faceDetected := true
     confidence := confidence
     healthMetrics := metrics
     fatigueScore := fatigueScore
     needsRest := decide (fatigueScore > 60)
     needsSleep := decide (fatigueScore > 80)
     trend := calculateTrend newHistory
     recommendations := generateRecommendations metrics fatigueScore },
   newHistory)

/-- `[...new Set(list)]`: duplicates removed, first-seen order kept. -/
def dedupFirstSeen (l : List String) : List String :=
  l.foldl (fun acc s => if s ∈ acc then acc else acc ++ [s]) []

/-- `restAnalysisService.ts` `aggregateFrameAnalyses`: throws on an empty
frame list (modelled as `Except.error`); otherwise averages the continuous
metrics, majority-votes (`count > length / 2`) the drowsiness booleans,
unions the recommendation strings in first-seen order, takes the trend of
the most recent frame, and recomputes `needsRest`/`needsSleep` from the
averaged fatigue score with the strict `> 60` / `> 80` thresholds.
`Date.now()` is the explicit parameter `now`. -/
def aggregateFrameAnalyses (now : ℕ) (analyses : List FaceAnalysisResult) :
    Except String FaceAnalysisResult :=
  if analyses.length = 0 then .error "No frame analyses available"
  else
    let n : ℚ := analyses.length
    let avg : (FaceAnalysisResult → ℚ) → ℚ := fun f => (analyses.map f).sum / n
    let majority : (FaceAnalysisResult → Bool) → Bool := fun p =>
      decide (((analyses.filter p).length : ℚ) > n / 2)
    let avgFatigueScore := avg (·.fatigueScore)
    let avgConfidence := avg (·.confidence)
    let avgHealthMetrics : HealthMetrics :=
      { eyeAspectRatio := avg (·.healthMetrics.eyeAspectRatio)
        blinkRate := avg (·.healthMetrics.blinkRate)
        eyeStrain := avg (·.healthMetrics.eyeStrain)
        facialTension := avg (·.healthMetrics.facialTension)
        headPose :=
          { pitch := avg (·.healthMetrics.headPose.pitch)
            yaw := avg (·.healthMetrics.headPose.yaw)
            roll := avg (·.healthMetrics.headPose.roll) }
        skinAnalysis :=
          { pallor := avg (·.healthMetrics.skinAnalysis.pallor)
            darkness := avg (·.healthMetrics.skinAnalysis.darkness) }
        drowsinessIndicators :=
          { heavyEyelids := majority (·.healthMetrics.drowsinessIndicators.heavyEyelids)
            slowBlinks := majority (·.healthMetrics.drowsinessIndicators.slowBlinks)
            headDropping := majority (·.healthMetrics.drowsinessIndicators.headDropping)
            reducedFacialExpression :=
              majority (·.healthMetrics.drowsinessIndicators.reducedFacialExpression) } }
    let allRecommendations :=
      dedupFirstSeen (analyses.foldr (fun a acc => a.recommendations ++ acc) [])
    let mostRecentTrend := (analyses.getLast?).elim Trend.stable (·.trend)
    .ok
      { timestamp := now
        faceDetected := true
        confidence := avgConfidence
        healthMetrics := avgHealthMetrics
        fatigueScore := avgFatigueScore
        needsRest := decide (avgFatigueScore > 60)
        needsSleep := decide (avgFatigueScore > 80)
        trend := mostRecentTrend
        recommendations := allRecommendations }

/-- A 2D keypoint as used by the eye-aspect-ratio geometry (`ℝ`, since the
source computes with `Math.sqrt`). -/
structure Point where
  x : ℝ
  y : ℝ

/-- `FaceAnalysisService.euclideanDistance`:
`Math.sqrt((p1.x - p2.x)^2 + (p1.y - p2.y)^2)`. -/
noncomputable def euclideanDistance (p1 p2 : Point) : ℝ :=
  Real.sqrt ((p1.x - p2.x) ^ 2 + (p1.y - p2.y) ^ 2)

/-- `FaceAnalysisService.calculateEyeAspectRatio`: with fewer than 6 eye
points the fallback `0.3` is returned; otherwise
`(vertical1 + vertical2) / (2 * horizontal)` where `horizontal` is the
distance between points 0 and 3 (the eye corners).  The division is not
guarded in the source; it is modelled as fallible, `none` standing for the
non-finite value JavaScript produces when `horizontal = 0`. -/
noncomputable def calculateEyeAspectRatio (eyePoints : List Point) : Option ℝ :=
  if eyePoints.length < 6 then some (3/10)
  else
    let d : Point := ⟨0, 0⟩
    let p1 := eyePoints.getD 1 d
    let p2 := eyePoints.getD 5 d
    let p3 := eyePoints.getD 2 d
    let p4 := eyePoints.getD 4 d
    let p5 := eyePoints.getD 0 d
    let p6 := eyePoints.getD 3 d
    let vertical1 := euclideanDistance p1 p2
    let vertical2 := euclideanDistance p3 p4
    let horizontal := euclideanDistance p5 p6
    if horizontal = 0 then none
    else some ((vertical1 + vertical2) / (2 * horizontal))

/-- Metrics that drive every fatigue component high: the weighted sum is 123,
clamped to a fatigue score of 100. -/
def mHigh : HealthMetrics :=
  { eyeAspectRatio := 0
    blinkRate := 0
    eyeStrain := 100
    facialTension := 0
    headPose := ⟨100, 0, 0⟩
    skinAnalysis := ⟨0, 0⟩
    drowsinessIndicators := ⟨true, true, true, false⟩ }

/-- The frame result produced from `mHigh` (fatigue score 100). -/
def fHigh : FaceAnalysisResult := (analyzeFaceCore [] 0 1 mHigh).1

/-- The session result of aggregating the single frame `fHigh`. -/
def rHigh : FaceAnalysisResult :=
  (aggregateFrameAnalyses 0 [fHigh]).toOption.getD fHigh

/-- Neutral metrics (all-zero numeric fields, all-false indicators). -/
def mZero : HealthMetrics :=
  { eyeAspectRatio := 0
    blinkRate := 0
    eyeStrain := 0
    facialTension := 0
    headPose := ⟨0, 0, 0⟩
    skinAnalysis := ⟨0, 0⟩
    drowsinessIndicators := ⟨false, false, false, false⟩ }

/-- A concrete frame result with fatigue score 40. -/
def frame40 : FaceAnalysisResult :=
  { timestamp := 0
    faceDetected := true
    confidence := 1
    healthMetrics := mZero
    fatigueScore := 40
    needsRest := false
    needsSleep := false
    trend := .stable
    recommendations := [] }

/-- A concrete frame result with fatigue score 80. -/
def frame80 : FaceAnalysisResult :=
  { frame40 with fatigueScore := 80, needsRest := true }

/-- Metrics for the recommendation-order scenario: eye strain 70, blink rate
5, head pitch 20. -/
def mRecs : HealthMetrics :=
  { eyeAspectRatio := 3/10
    blinkRate := 5
    eyeStrain := 70
    facialTension := 0
    headPose := ⟨20, 0, 0⟩
    skinAnalysis := ⟨0, 0⟩
    drowsinessIndicators := ⟨false, false, false, false⟩ }

/-- Six eye keypoints whose two horizontal corner points (indices 0 and 3)
coincide, so the EAR divisor is zero. -/
def badEyePoints : List Point :=
  [⟨0, 0⟩, ⟨1, 0⟩, ⟨1, 1⟩, ⟨0, 0⟩, ⟨2, 1⟩, ⟨2, 0⟩]

/-- An 11-score history whose oldest entry is 0. -/
def histA : List ℚ := [0, 80, 80, 80, 80, 80, 30, 30, 30, 30, 30]

/-- An 11-score history differing from `histA` only in the oldest entry. -/
def histB : List ℚ := [99, 80, 80, 80, 80, 80, 30, 30, 30, 30, 30]

/-- C1: For every input `HealthMetrics` (including adversarial values such as a
negative eye-aspect ratio or a pitch above 1000), `calculateFatigueScore`
returns a score in the closed interval `[0, 100]`. -/
theorem calculateFatigueScore_mem_Icc (metrics : HealthMetrics) :
    0 ≤ calculateFatigueScore metrics ∧ calculateFatigueScore metrics ≤ 100 := by
  unfold calculateFatigueScore
  constructor
  · exact le_min (by norm_num) (le_max_left 0 _)
  · exact min_le_left 100 _

/-- C2: In every produced result — the per-frame result built by
`analyzeFaceCore` and the aggregated session result returned by
`aggregateFrameAnalyses` — `needsSleep` implies `needsRest`: a score above
80 is also above 60, so no result has `needsSleep = true` with
`needsRest = false`. -/
theorem needsSleep_implies_needsRest (fatigueHistory : List ℚ) (now now2 : ℕ)
    (confidence : ℚ) (metrics : HealthMetrics)
    (analyses : List FaceAnalysisResult) (r : FaceAnalysisResult) :
    ((analyzeFaceCore fatigueHistory now confidence metrics).1.needsSleep = true →
      (analyzeFaceCore fatigueHistory now confidence metrics).1.needsRest = true)
    ∧ (aggregateFrameAnalyses now2 analyses = .ok r →
        r.needsSleep = true → r.needsRest = true) := by
  constructor
  · intro h
    simp only [analyzeFaceCore, decide_eq_true_eq] at h ⊢
    linarith
  · intro hok hsleep
    unfold aggregateFrameAnalyses at hok
    by_cases hlen : analyses.length = 0
    · simp [hlen] at hok
    · simp only [hlen, if_false, Except.ok.injEq] at hok
      subst hok
      simp only [decide_eq_true_eq] at hsleep ⊢
      linarith

/-- Witness for C2 at the concrete high-fatigue metrics `mHigh` (frame score
100) and the single-frame aggregation `rHigh`. -/
theorem needsSleep_implies_needsRest_witness :
    (analyzeFaceCore [] 0 1 mHigh).1.needsRest = true ∧ rHigh.needsRest = true :=
  ⟨(needsSleep_implies_needsRest [] 0 0 1 mHigh [] frame40).1
      (by norm_num [analyzeFaceCore, calculateFatigueScore, earFatigue, mHigh]),
   (needsSleep_implies_needsRest [] 0 0 1 mHigh [fHigh] rHigh).2 (by rfl)
      (by norm_num [rHigh, aggregateFrameAnalyses, fHigh, analyzeFaceCore,
        calculateFatigueScore, earFatigue, mHigh, Except.toOption])⟩

/-- C3: `aggregateFrameAnalyses` on an empty frame list returns the explicit
invalid-input error thrown by the source (`No frame analyses available`);
in particular it never returns an `ok` result, default-valued or otherwise. -/
theorem aggregateFrameAnalyses_empty_error (now : ℕ) :
    aggregateFrameAnalyses now [] = .error "No frame analyses available" := rfl

/-- C4 counterexample: aggregating the two concrete frames with fatigue
scores 40 and 80 yields the mean score 60, but `needsRest = false` (and
`needsSleep = false`), because the `> 60` threshold is strict — refuting the
claim that the result has `needsRest = true`. -/
theorem aggregate_40_80_needsRest_false :
    (aggregateFrameAnalyses 0 [frame40, frame80]).toOption.map
      (fun r => (r.fatigueScore, r.needsRest)) = some (60, false) := by
  norm_num [aggregateFrameAnalyses, frame40, frame80, Except.toOption]

/-- C4 amended: aggregating exactly two frame results with fatigue scores 40
and 80 yields a session result with `fatigueScore = 60` (the arithmetic
mean), `needsRest = false` and `needsSleep = false` (strict thresholds: the
boundary value 60 is not flagged). -/
theorem aggregate_40_80_mean :
    (aggregateFrameAnalyses 0 [frame40, frame80]).toOption.map
      (fun r => (r.fatigueScore, r.needsRest, r.needsSleep))
      = some (60, false, false) := by
  norm_num [aggregateFrameAnalyses, frame40, frame80, Except.toOption]

/-- C5 counterexample: at `eyeAspectRatio = 0` the `earFatigue` component is
exactly 90, strictly below 100 — refuting the claim that it is at least 100
for every `eyeAspectRatio ≤ 0`. -/
theorem earFatigue_zero_eq_90 :
    earFatigue 0 = 90 ∧ earFatigue 0 < 100 := by
  norm_num [earFatigue]

/-- C5 amended: `earFatigue` is clamped at 0 from below for every input; for
every `eyeAspectRatio ≤ 0` it is at least 90, and it reaches full saturation
(at least 100) exactly on inputs `eyeAspectRatio ≤ -1/30`. -/
theorem earFatigue_bounds (eyeAspectRatio : ℚ) :
    0 ≤ earFatigue eyeAspectRatio
    ∧ (eyeAspectRatio ≤ 0 → 90 ≤ earFatigue eyeAspectRatio)
    ∧ (100 ≤ earFatigue eyeAspectRatio ↔ eyeAspectRatio ≤ -(1/30)) := by
  refine ⟨le_max_left 0 _, fun h => ?_, ?_⟩
  · calc (90 : ℚ) ≤ (3/10 - eyeAspectRatio) * 300 := by nlinarith
    _ ≤ earFatigue eyeAspectRatio := le_max_right 0 _
  · unfold earFatigue
    constructor
    · intro h
      rcases max_cases (0 : ℚ) ((3/10 - eyeAspectRatio) * 300) with ⟨he, _⟩ | ⟨he, _⟩ <;>
        rw [he] at h <;> nlinarith
    · intro h
      calc (100 : ℚ) ≤ (3/10 - eyeAspectRatio) * 300 := by nlinarith
      _ ≤ max 0 ((3/10 - eyeAspectRatio) * 300) := le_max_right 0 _

/-- Witness for C5 at `eyeAspectRatio = -1`: the component is nonnegative,
at least 90, and saturated. -/
theorem earFatigue_bounds_witness :
    0 ≤ earFatigue (-1) ∧ 90 ≤ earFatigue (-1) ∧ 100 ≤ earFatigue (-1) :=
  ⟨(earFatigue_bounds (-1)).1,
   (earFatigue_bounds (-1)).2.1 (by norm_num),
   (earFatigue_bounds (-1)).2.2.mpr (by norm_num)⟩

/-- C6 counterexample: with the last blink recorded at time 0 and a blink
observed at time 200 — exactly 200ms later — no new blink is recorded (the
source requires strictly more than 200ms), refuting the claim that a blink
is recorded once at least 200ms has elapsed. -/
theorem trackBlinks_at_exactly_200 :
    trackBlinksPush [0] true 200 = [0] ∧ trackBlinks [0] true 200 = [0] := by
  constructor <;> decide

/-- C6 amended: a blink event is recorded (the current time appended)
exactly when `isBlinking` is true and either no previous blink is recorded
or strictly more than 200ms has elapsed since the last recorded blink; the
examples hold: blinks at t=0 then t=150 leave one recorded blink, blinks at
t=0 then t=250 leave two. -/
theorem trackBlinks_records_iff (previousBlinks : List ℕ) (isBlinking : Bool)
    (currentTime : ℕ) :
    (trackBlinksPush previousBlinks isBlinking currentTime
        = previousBlinks ++ [currentTime] ↔
      isBlinking = true ∧ (previousBlinks = [] ∨
        ∃ lastBlink, previousBlinks.getLast? = some lastBlink ∧
          200 < currentTime - lastBlink))
    ∧ trackBlinks [] true 0 = [0]
    ∧ trackBlinks [0] true 150 = [0]
    ∧ trackBlinks [0] true 250 = [0, 250] := by
  refine ⟨?_, by decide, by decide, by decide⟩
  rcases previousBlinks with _ | ⟨b, bs⟩
  · cases isBlinking <;> simp [trackBlinksPush]
  · have hlast : (b :: bs).getLast? = some ((b :: bs).getLastD 0) := by
      rw [List.getLastD_eq_getLast?]
      rcases hl : (b :: bs).getLast? with _ | x
      · simp at hl
      · rfl
    simp only [trackBlinksPush]
    cases isBlinking
    · simp
    · rw [if_pos (by simp)]
      by_cases hc : currentTime - (b :: bs).getLastD 0 > 200
      · rw [if_pos hc]
        exact iff_of_true rfl ⟨rfl, Or.inr ⟨(b :: bs).getLastD 0, hlast, hc⟩⟩
      · rw [if_neg hc]
        constructor
        · intro h
          have := congrArg List.length h
          simp at this
        · rintro ⟨-, h | ⟨l, hl, hgt⟩⟩
          · simp at h
          · rw [hlast] at hl
            injection hl with hll
            rw [hll] at hc
            exact absurd hgt hc

/-- Witness for C6: applying the characterization at the state `[0]` with a
blink at t = 300 records a second blink. -/
theorem trackBlinks_records_iff_witness :
    trackBlinksPush [0] true 300 = [0] ++ [300] ∧ trackBlinks [] true 0 = [0] :=
  ⟨(trackBlinks_records_iff [0] true 300).1.mpr
      ⟨rfl, Or.inr ⟨0, rfl, by norm_num⟩⟩,
   (trackBlinks_records_iff [0] true 300).2.1⟩

/-- C7: `calculateTrend` agrees with the spec description `trendSpec`
(fewer than 5 scores → `stable`; otherwise compare the mean of the last 5
scores against the mean of the 5 before those, `stable` when the older
window is empty, `improving` below `-5`, `declining` above `5`), and the
history `[80,80,80,80,80,30,30,30,30,30]` classifies as `improving`. -/
theorem calculateTrend_spec (fatigueHistory : List ℚ) :
    calculateTrend fatigueHistory = trendSpec fatigueHistory
    ∧ calculateTrend [80, 80, 80, 80, 80, 30, 30, 30, 30, 30] = .improving := by
  constructor
  · by_cases h5 : fatigueHistory.length < 5
    · simp [calculateTrend, trendSpec, h5]
    · have hlen : (fatigueHistory.take (fatigueHistory.length - 5)).length - 5
          = fatigueHistory.length - 10 := by
        rw [List.length_take]; omega
      simp only [calculateTrend, trendSpec, lastN, if_neg h5, hlen]
      by_cases he : (fatigueHistory.take (fatigueHistory.length - 5)).drop
          (fatigueHistory.length - 10) = []
      · rw [if_pos (by rw [he]; rfl), if_pos he]
      · rw [if_neg (fun h => he (List.length_eq_zero.mp h)), if_neg he]
  · norm_num [calculateTrend]

/-- C8 counterexample: for fatigue score 90, eye strain 70, blink rate 5 and
pitch 20, `generateRecommendations` returns eight items, not four — each of
the four triggered conditions pushes two messages. -/
theorem generateRecommendations_length_eight :
    (generateRecommendations mRecs 90).length = 8 := by
  norm_num [generateRecommendations, mRecs]

/-- C8 amended: for fatigue score 90, eye strain 70, blink rate 5 and pitch
20 the recommendation list has exactly eight items: the two urgent-nap
messages first, then the two screen-break messages, then the two blink-rate
messages, then the two posture messages, in that order. -/
theorem generateRecommendations_order :
    generateRecommendations mRecs 90 =
      ["Take a 20-30 minute nap immediately",
       "Avoid driving or operating machinery",
       "Look away from screens for 5-10 minutes",
       "Practice the 20-20-20 rule (look 20 feet away for 20 seconds every 20 minutes)",
       "Consciously blink more frequently",
       "Use eye drops if eyes feel dry",
       "Improve your posture",
       "Adjust your workspace ergonomics"] := by
  norm_num [generateRecommendations, mRecs]

/-- C9: `badEyePoints` has 6 points and its two horizontal eye-corner points
(indices 0 and 3) coincide; on it the eye-aspect-ratio computation hits an
unguarded division by zero (result `none`, i.e. no finite ratio), while the
0.3 fallback applies to inputs with fewer than 6 points such as `[]`. -/
theorem calculateEyeAspectRatio_div_zero :
    badEyePoints.length = 6
    ∧ badEyePoints.getD 0 ⟨0, 0⟩ = badEyePoints.getD 3 ⟨0, 0⟩
    ∧ calculateEyeAspectRatio badEyePoints = none
    ∧ calculateEyeAspectRatio [] = some (3/10) := by
  have hz : euclideanDistance ⟨0, 0⟩ ⟨0, 0⟩ = 0 := by
    unfold euclideanDistance
    norm_num
  refine ⟨rfl, rfl, ?_, rfl⟩
  simp only [calculateEyeAspectRatio, badEyePoints]
  norm_num [hz]

/-- Helper for C10: `calculateTrend` only looks at the length guard, the
`recent` window and the `older` window; histories agreeing on those classify
identically. -/
theorem calculateTrend_congr (l1 l2 : List ℚ)
    (hg : l1.length < 5 ↔ l2.length < 5)
    (hrec : l1.drop (l1.length - 5) = l2.drop (l2.length - 5))
    (hold : (l1.take (l1.length - 5)).drop (l1.length - 10)
      = (l2.take (l2.length - 5)).drop (l2.length - 10)) :
    calculateTrend l1 = calculateTrend l2 := by
  simp only [calculateTrend, hrec, hold]
  by_cases h : l1.length < 5
  · rw [if_pos h, if_pos (hg.mp h)]
  · rw [if_neg h, if_neg (fun hh => h (hg.mpr hh))]

/-- Helper for C10: for a history of at least 10 scores, the `recent` window
is determined by the last 10 scores. -/
theorem recent_eq_lastN (h : List ℚ) (hlen : 10 ≤ h.length) :
    h.drop (h.length - 5) = (lastN 10 h).drop 5 := by
  rw [lastN, List.drop_drop]
  congr 1
  omega

/-- Helper for C10: for a history of at least 10 scores, the `older` window
is determined by the last 10 scores. -/
theorem older_eq_lastN (h : List ℚ) (hlen : 10 ≤ h.length) :
    (h.take (h.length - 5)).drop (h.length - 10) = (lastN 10 h).take 5 := by
  rw [List.drop_take, lastN]
  congr 1
  omega

/-- C10: the trend classification depends only on the last 10 scores of the
fatigue history — two histories of length at least 10 that agree on their
final 10 entries classify identically. -/
theorem calculateTrend_last10 (h1 h2 : List ℚ)
    (hl1 : 10 ≤ h1.length) (hl2 : 10 ≤ h2.length)
    (hagree : lastN 10 h1 = lastN 10 h2) :
    calculateTrend h1 = calculateTrend h2 := by
  apply calculateTrend_congr
  · omega
  · rw [recent_eq_lastN h1 hl1, recent_eq_lastN h2 hl2, hagree]
  · rw [older_eq_lastN h1 hl1, older_eq_lastN h2 hl2, hagree]

/-- Witness for C10: `histA` and `histB` differ in their oldest entry but
share their last 10 scores, and classify identically. -/
theorem calculateTrend_last10_witness :
    10 ≤ histA.length ∧ 10 ≤ histB.length ∧ lastN 10 histA = lastN 10 histB
    ∧ calculateTrend histA = calculateTrend histB :=
  ⟨by decide, by decide, by decide,
   calculateTrend_last10 histA histB (by decide) (by decide) (by decide)⟩

end SleepRest
